import Mathlib

/-
Shallow embedding of the simulation core of `crossy_road_1hr.py`.

Modelling conventions:
* Python floats are modelled as exact rationals (`ℚ`).
* `math.sqrt` is modelled by `Rat.sqrt`, which agrees with the real square
  root on perfect squares; all distances reached by the game's axis-aligned
  hops are perfect squares, and for the one non-square distance used by the
  eagle only the comparison against small thresholds matters.
* Python `int(x)` truncates toward zero; this is `truncZ` below.
* `random.*` draws are threaded through as explicit parameters, with their
  documented ranges (`random.uniform(a, b) ∈ [a, b]`, `random.sample`
  produces distinct in-range values) available as hypotheses where needed.
* The lazily generated `World.lanes` dictionary is modelled as a total
  function `ℤ → Lane`: `_generate_lanes` only inserts missing rows, so a
  row's lane is fixed at first touch and the dictionary behaves as the
  total function sending each row to the lane generated for it.
* Rendering (draw methods), sound, colors and the cosmetic `hop_height`
  (written from `|sin|`, never read by game logic) are omitted.
-/

/-- Constant `TILE_SIZE = 50`. -/
def TILE_SIZE : ℚ := 50

/-- Python `int()` conversion: truncation toward zero. -/
def truncZ (q : ℚ) : ℤ := q.num.tdiv q.den

/-- Lane types `LANE_GRASS .. LANE_TRAIN`. -/
inductive LaneType where
  | grass
  | road
  | water
  | train
deriving DecidableEq, Repr

/-- The death causes recorded by `Player.die` (`'squash'`, `'splash'`, `'eagle'`). -/
inductive Cause where
  | squash
  | splash
  | eagle
deriving DecidableEq, Repr

/-- Vehicle type tags `'car'`, `'truck'`, `'train'`. -/
inductive VehicleType where
  | car
  | truck
  | train
deriving DecidableEq, Repr

/-- Cars, trucks, and trains (class `Vehicle`); the random color is dropped. -/
@[ext]
structure Vehicle where
  x : ℚ
  y : ℤ
  speed : ℚ
  type : VehicleType
  length : ℕ
deriving DecidableEq, Repr

/-- Constructor `Vehicle.__init__`: the length argument (default 1) is overridden to 2 for
trucks and 6 for trains. -/
def Vehicle.make (x : ℚ) (y : ℤ) (speed : ℚ) (t : VehicleType) (length : ℕ := 1) :
    Vehicle :=
  { x := x, y := y, speed := speed, type := t,
    length := match t with
      | .truck => 2
      | .train => 6
      | .car => length }

/-- Method `Vehicle.update`: advance by `speed * dt * 60` pixels, then wrap when past
the off-screen bound for the current direction. -/
def Vehicle.update (dt : ℚ) (world_width : ℤ) (v : Vehicle) : Vehicle :=
  let x := v.x + v.speed * dt * 60
  if v.speed > 0 ∧ x > world_width * TILE_SIZE + TILE_SIZE * v.length then
    { v with x := -(TILE_SIZE * v.length) }
  else if v.speed < 0 ∧ x < -(TILE_SIZE * v.length) then
    { v with x := world_width * TILE_SIZE + TILE_SIZE * v.length }
  else
    { v with x := x }

/-- Library `pygame.Rect` rounds its inputs toward zero and `colliderect` tests strict
overlap of the two axis intervals. -/
def rectsCollide (x1 y1 w1 h1 x2 y2 w2 h2 : ℤ) : Bool :=
  decide (x1 < x2 + w2 ∧ x2 < x1 + w1 ∧ y1 < y2 + h2 ∧ y2 < y1 + h1)

/-- Method `Vehicle.collides_with`: inflated-hitbox intersection of the player's
30×30 box and the vehicle's `(50·length − 10)×40` box. -/
def Vehicle.collides_with (v : Vehicle) (player_x player_y : ℚ) : Bool :=
  rectsCollide (truncZ (player_x + 10)) (truncZ (player_y + 10)) 30 30
    (truncZ (v.x + 5)) (v.y * 50 + 5) (50 * v.length - 10) 40

/-- Floating logs and lily pads (class `Log`). -/
@[ext]
structure Log where
  x : ℚ
  y : ℤ
  speed : ℚ
  length : ℕ
  is_lily : Bool
deriving DecidableEq, Repr

/-- Method `Log.update`: same motion and wraparound rule as `Vehicle.update`. -/
def Log.update (dt : ℚ) (world_width : ℤ) (l : Log) : Log :=
  let x := l.x + l.speed * dt * 60
  if l.speed > 0 ∧ x > world_width * TILE_SIZE + TILE_SIZE * l.length then
    { l with x := -(TILE_SIZE * l.length) }
  else if l.speed < 0 ∧ x < -(TILE_SIZE * l.length) then
    { l with x := world_width * TILE_SIZE + TILE_SIZE * l.length }
  else
    { l with x := x }

/-- Method `Log.player_on_log`: the player's horizontal center lies strictly inside
the log's span expanded by 10 pixels on both sides. -/
def Log.player_on_log (l : Log) (player_x : ℚ) : Bool :=
  let player_center_x := player_x + 25
  decide (l.x - 10 < player_center_x ∧ player_center_x < l.x + TILE_SIZE * l.length + 10)

/-- The chicken player (class `Player`); `hop_height` is omitted (display only). -/
@[ext]
structure Player where
  grid_x : ℤ
  grid_y : ℤ
  pixel_x : ℚ
  pixel_y : ℚ
  target_x : ℚ
  target_y : ℚ
  moving : Bool
  move_speed : ℚ
  direction : ℕ
  hop_phase : ℚ
  alive : Bool
  on_log : Option Log
  death_animation : ℚ
  death_type : Option Cause
  idle_time : ℚ
deriving DecidableEq, Repr

/-- Constructor `Player.__init__(x, y)`. -/
def Player.init (x y : ℤ) : Player :=
  { grid_x := x, grid_y := y,
    pixel_x := x * TILE_SIZE, pixel_y := y * TILE_SIZE,
    target_x := x * TILE_SIZE, target_y := y * TILE_SIZE,
    moving := false, move_speed := 12, direction := 0, hop_phase := 0,
    alive := true, on_log := none, death_animation := 0, death_type := none,
    idle_time := 0 }

/-- Method `Player.die`: record the death cause and stop input processing. -/
def Player.die (p : Player) (death_type : Cause) : Player :=
  { p with alive := false, death_type := some death_type, death_animation := 0 }

/-- A single row of the world (class `Lane`). -/
@[ext]
structure Lane where
  y : ℤ
  type : LaneType
  world_width : ℤ
  obstacles : List ℤ
  vehicles : List Vehicle
  logs : List Log
  coins : List ℤ
  grass_variant : Bool
  warning_active : Bool
  train_timer : ℚ
  warning_time : ℚ
  train : Option Vehicle
deriving DecidableEq, Repr

/-- The random draws consumed by `Lane._generate_content` for a Grass lane:
`num_trees = random.randint(0, 4)`, `positions = random.sample(range(w), _)`,
the coin probability roll, and the `random.choice(available)` pick. -/
structure GrassDraws where
  num_trees : ℕ
  positions : List ℤ
  coin_roll : ℚ
  coin_pick : ℤ

/-- The random draws consumed for a Road lane: the lane speed
(`random.uniform(0.8, 4.5) * random.choice([-1, 1])`), the vehicle count
(`random.randint(1, 3)`), the vehicle type choice, and the per-vehicle
`random.randint(0, w)` start offsets. -/
structure RoadDraws where
  speed : ℚ
  num_vehicles : ℕ
  vtype : VehicleType
  start : ℕ → ℤ

/-- The random draws consumed for a Water lane: the lane speed
(`random.uniform(0.4, 3.2) * random.choice([-1, 1])`), the log count
(`random.randint(2, 4)`), and per-log offset, lily roll and length draws. -/
structure WaterDraws where
  speed : ℚ
  num_logs : ℕ
  off : ℕ → ℤ
  lily : ℕ → Bool
  len : ℕ → ℕ

/-- All random draws consumed by `Lane.__init__` (the draws for the branch
not taken by the lane's type are simply ignored, as in the source where the
corresponding `random` calls never execute). -/
structure LaneDraws where
  grass_variant : Bool
  g : GrassDraws
  r : RoadDraws
  w : WaterDraws
  train_timer : ℚ

/-- Method `Lane._generate_content` for `LANE_GRASS`: trees at the sampled positions;
with probability 0.1 one coin on a column that is not an obstacle. -/
def Lane.grassContent (world_width : ℤ) (d : GrassDraws) : List ℤ × List ℤ :=
  let obstacles := d.positions
  let coins :=
    if d.coin_roll < 1/10 then
      let available := ((List.range world_width.toNat).map Int.ofNat).filter
        (fun i => decide (i ∉ obstacles))
      if available ≠ [] then [d.coin_pick] else []
    else []
  (obstacles, coins)

/-- Method `Lane._generate_content` for `LANE_ROAD`: 1–3 vehicles of one drawn type,
all sharing the single drawn lane speed, spread by `i * TILE_SIZE * 4`. -/
def Lane.roadContent (y : ℤ) (d : RoadDraws) : List Vehicle :=
  (List.range d.num_vehicles).map fun i =>
    Vehicle.make (d.start i * TILE_SIZE + i * TILE_SIZE * 4) y d.speed d.vtype

/-- Method `Lane._generate_content` for `LANE_WATER`: 2–4 logs/lily pads, all sharing
the single drawn lane speed; lily pads have length 1. -/
def Lane.waterContent (y : ℤ) (d : WaterDraws) : List Log :=
  (List.range d.num_logs).map fun i =>
    let is_lily := d.lily i
    let length := if is_lily then 1 else d.len i
    { x := (i : ℚ) * TILE_SIZE * 4 + d.off i * TILE_SIZE, y := y, speed := d.speed,
      length := length, is_lily := is_lily }

/-- Constructor `Lane.__init__` (including `_generate_content`). -/
def Lane.generate (y : ℤ) (type : LaneType) (world_width : ℤ) (d : LaneDraws) : Lane :=
  let base : Lane :=
    { y := y, type := type, world_width := world_width,
      obstacles := [], vehicles := [], logs := [], coins := [],
      grass_variant := d.grass_variant,
      warning_active := false, train_timer := 0, warning_time := 3/2, train := none }
  match type with
  | .grass =>
      let c := Lane.grassContent world_width d.g
      { base with obstacles := c.1, coins := c.2 }
  | .road => { base with vehicles := Lane.roadContent y d.r }
  | .water => { base with logs := Lane.waterContent y d.w }
  | .train => { base with train_timer := d.train_timer }

/-- Method `Lane.has_obstacle_at`. -/
def Lane.has_obstacle_at (l : Lane) (x : ℤ) : Bool := decide (x ∈ l.obstacles)

/-- Method `Lane.collect_coin`: remove the first occurrence of `x` from the coin list
and report success; a miss leaves the lane unchanged. -/
def Lane.collect_coin (l : Lane) (x : ℤ) : Bool × Lane :=
  if x ∈ l.coins then (true, { l with coins := l.coins.erase x })
  else (false, l)

/-- The random draws a single `Lane.update` tick may consume: the train
direction choice `random.choice([-1, 1])` (`true` = rightward) and the
`random.uniform(3, 8)` timer reset. -/
structure LaneRng where
  dir : Bool
  reset_timer : ℚ

/-- Method `Lane.update`: advance vehicles and logs; for a train lane run the
countdown/warning/spawn/despawn logic. -/
def Lane.update (dt : ℚ) (rng : LaneRng) (l : Lane) : Lane :=
  let l := { l with
    vehicles := l.vehicles.map (Vehicle.update dt l.world_width),
    logs := l.logs.map (Log.update dt l.world_width) }
  if l.type = .train then
    match l.train with
    | none =>
        let t := l.train_timer - dt
        let w := if t < l.warning_time then true else l.warning_active
        if t ≤ 0 then
          let speed : ℚ := if rng.dir then 8 else -8
          let start_x := if speed > 0 then -(TILE_SIZE * 7)
            else l.world_width * TILE_SIZE + TILE_SIZE
          { l with
              train_timer := t, warning_active := false,
              train := some (Vehicle.make start_x l.y speed .train) }
        else
          { l with train_timer := t, warning_active := w }
    | some tr =>
        let tr := Vehicle.update dt l.world_width tr
        if tr.speed > 0 ∧ tr.x > l.world_width * TILE_SIZE + TILE_SIZE * 7 then
          { l with train := none, train_timer := rng.reset_timer }
        else if tr.speed < 0 ∧ tr.x < -(TILE_SIZE * 7) then
          { l with train := none, train_timer := rng.reset_timer }
        else
          { l with train := some tr }
  else l

/-- Method `Lane.check_collision`: returns the outcome (`none` / squash / splash) and
the player with its log association updated exactly as the source mutates it. -/
def Lane.check_collision (l : Lane) (p : Player) : Option Cause × Player :=
  if ¬ p.alive then (none, p)
  else if truncZ (p.pixel_y / TILE_SIZE) ≠ l.y then (none, p)
  else if l.vehicles.any (fun v => v.collides_with p.pixel_x p.pixel_y) then
    (some .squash, p)
  else if l.type = .train ∧ l.train.any (fun v => v.collides_with p.pixel_x p.pixel_y) then
    (some .squash, p)
  else if l.type = .water then
    match l.logs.find? (fun lg => lg.player_on_log p.pixel_x) with
    | some lg => (none, { p with on_log := some lg })
    | none => (some .splash, { p with on_log := none })
  else (none, { p with on_log := none })

/-- Method `World._create_lane` type selection: rows at or behind spawn are Grass;
rows ahead are classified by cumulative thresholds on one uniform roll. -/
def laneTypeFor (y : ℤ) (roll : ℚ) : LaneType :=
  if y ≥ 0 then .grass
  else if roll < 3/10 then .grass
  else if roll < 6/10 then .road
  else if roll < 85/100 then .water
  else .train

/-- The game world (class `World`): fixed width 16 and the row → lane mapping,
modelled as the total function produced by lazy generation (see header). -/
@[ext]
structure World where
  width : ℤ
  lanes : ℤ → Lane

/-- Constructor `World.__init__` with the per-row type roll and content draws made
explicit. -/
def World.create (roll : ℤ → ℚ) (draws : ℤ → LaneDraws) : World :=
  { width := 16,
    lanes := fun y => Lane.generate y (laneTypeFor y (roll y)) 16 (draws y) }

/-- Method `World.get_lane` (generation on miss is a no-op in the total model). -/
def World.get_lane (w : World) (y : ℤ) : Lane := w.lanes y

/-- Method `World.update`: advance only the lanes in the window
`[current_row − 15, current_row + 15)` around the player. -/
def World.update (dt : ℚ) (rng : ℤ → LaneRng) (player_y : ℚ) (w : World) : World :=
  let current_grid_y := truncZ (player_y / TILE_SIZE)
  { w with lanes := (fun y =>
      if current_grid_y - 15 ≤ y ∧ y < current_grid_y + 15 then
        Lane.update dt (rng y) (w.lanes y)
      else w.lanes y) }

/-- Method `World.check_collisions`: query the three lanes centered on the player's
row in ascending order, stopping at the first non-none outcome, threading the
player's log association through each check. -/
def World.check_collisions (w : World) (p : Player) : Option Cause × Player :=
  let cy := truncZ (p.pixel_y / TILE_SIZE)
  let r1 := (w.lanes (cy - 1)).check_collision p
  match r1 with
  | (some c, p1) => (some c, p1)
  | (none, p1) =>
    let r2 := (w.lanes cy).check_collision p1
    match r2 with
    | (some c, p2) => (some c, p2)
    | (none, p2) => (w.lanes (cy + 1)).check_collision p2

/-- Method `World.check_coin_collection`: collect at the player's truncated grid
cell; only the queried lane can change. -/
def World.check_coin_collection (w : World) (p : Player) : Bool × World :=
  let gy := truncZ (p.pixel_y / TILE_SIZE)
  let gx := truncZ (p.pixel_x / TILE_SIZE)
  let r := (w.lanes gy).collect_coin gx
  (r.1, { w with lanes := fun y => if y = gy then r.2 else w.lanes y })

/-- Method `Player.move`: reject while animating or dead, or when the target column
is out of bounds or obstructed; otherwise commit the grid position at once,
start the hop animation and reset the idle timer. -/
def Player.move (p : Player) (dx dy : ℤ) (world : World) : Bool × Player :=
  if p.moving ∨ ¬ p.alive then (false, p)
  else
    let new_grid_x := p.grid_x + dx
    let new_grid_y := p.grid_y + dy
    if new_grid_x < 0 ∨ new_grid_x ≥ world.width then (false, p)
    else if (world.get_lane new_grid_y).has_obstacle_at new_grid_x then (false, p)
    else
      (true,
        { p with
            grid_x := new_grid_x, grid_y := new_grid_y,
            target_x := new_grid_x * TILE_SIZE, target_y := new_grid_y * TILE_SIZE,
            moving := true, hop_phase := 0, idle_time := 0,
            direction :=
              if dy < 0 then 0 else if dx > 0 then 1
              else if dy > 0 then 2 else if dx < 0 then 3 else p.direction })

/-- Method `Player.update`: dead players only advance the death animation; otherwise
accumulate idle time, interpolate the pixel position toward the hop target
(snapping when closer than one step), then apply log drift, resynchronizing
the grid column from the drifted pixel position. -/
def Player.update (dt : ℚ) (p : Player) : Player :=
  if ¬ p.alive then { p with death_animation := p.death_animation + dt }
  else
    let p := { p with idle_time := p.idle_time + dt }
    let p :=
      if p.moving then
        let dx := p.target_x - p.pixel_x
        let dy := p.target_y - p.pixel_y
        let dist := Rat.sqrt (dx * dx + dy * dy)
        if dist < p.move_speed then
          { p with pixel_x := p.target_x, pixel_y := p.target_y, moving := false }
        else
          { p with
              pixel_x := p.pixel_x + dx / dist * p.move_speed,
              pixel_y := p.pixel_y + dy / dist * p.move_speed,
              hop_phase := p.hop_phase + 1/5 }
      else p
    match p.on_log with
    | some lg =>
        let px := p.pixel_x + lg.speed * dt * 60
        { p with pixel_x := px, grid_x := truncZ (px / TILE_SIZE), target_x := px }
    | none => p

/-- The idle-catching eagle (class `Eagle`). -/
@[ext]
structure Eagle where
  active : Bool
  x : ℚ
  y : ℚ
  target_x : ℚ
  target_y : ℚ
  phase : ℕ
  wing_phase : ℚ
deriving DecidableEq, Repr

/-- Constructor `Eagle.__init__`. -/
def Eagle.init : Eagle :=
  { active := false, x := 0, y := -100, target_x := 0, target_y := 0,
    phase := 0, wing_phase := 0 }

/-- Method `Eagle.activate`: start (or restart) the swoop from a fixed offset behind
and above the recorded target position. -/
def Eagle.activate (e : Eagle) (player_x player_y : ℚ) : Eagle :=
  { e with
      active := true, x := player_x - 200, y := player_y - 300,
      target_x := player_x, target_y := player_y, phase := 0 }

/-- Method `Eagle.update`: while approaching (phase 0) move 5 px toward the target,
reporting a catch once the remaining distance drops below 20; while departing
(phase 2) rise until off screen, then deactivate. -/
def Eagle.update (dt : ℚ) (e : Eagle) : Bool × Eagle :=
  if ¬ e.active then (false, e)
  else
    let e := { e with wing_phase := e.wing_phase + dt * 10 }
    if e.phase = 0 then
      let dx := e.target_x - e.x
      let dy := e.target_y - e.y
      let dist := Rat.sqrt (dx * dx + dy * dy)
      if dist < 20 then (true, { e with phase := 1 })
      else (false, { e with x := e.x + dx / dist * 5, y := e.y + dy / dist * 5 })
    else if e.phase = 2 then
      let y := e.y - 5
      (false, { e with y := y, active := if y < -200 then false else e.active })
    else (false, e)

/-- The session state owned by class `Game` (presentation fields omitted). -/
@[ext]
structure Game where
  world : World
  player : Player
  eagle : Eagle
  camera_y : ℚ
  target_camera_y : ℚ
  score : ℤ
  max_y_reached : ℤ
  coins_collected : ℕ
  game_over : Bool
  game_over_timer : ℚ
  high_score : ℤ

/-- Method `Game.reset_game` (the fresh `World()`'s randomness made explicit). -/
def Game.reset (high_score : ℤ) (roll : ℤ → ℚ) (draws : ℤ → LaneDraws) : Game :=
  { world := World.create roll draws,
    player := Player.init 8 2,
    eagle := Eagle.init,
    camera_y := 0, target_camera_y := 0,
    score := 0, max_y_reached := 0, coins_collected := 0,
    game_over := false, game_over_timer := 0, high_score := high_score }

/-- The result of the movement/collision/eagle phases of one tick (the part
of `Game.update` before scoring and camera follow). -/
structure StepResult where
  player : Player
  world : World
  eagle : Eagle
  game_over : Bool
  coin : Bool

/-- The phases of `Game.update` up to and including the eagle, in source
order — player, world, collisions, coins, off-screen log ride, idle-triggered
eagle activation, eagle pursuit. -/
def Game.stepCore (dt : ℚ) (rng : ℤ → LaneRng) (g : Game) : StepResult :=
  let p := g.player.update dt
  let w := g.world.update dt rng p.pixel_y
  let cc := if p.alive then w.check_collisions p else (none, p)
  let p := match cc.1 with
    | some c => cc.2.die c
    | none => cc.2
  let go := cc.1.isSome
  let coin := w.check_coin_collection p
  let w := coin.2
  let splashed := p.alive ∧ p.on_log.isSome ∧
    (p.pixel_x < -TILE_SIZE ∨ p.pixel_x > w.width * TILE_SIZE)
  let p := if splashed then p.die .splash else p
  let go := go ∨ splashed
  let e := if p.alive ∧ p.idle_time > 5 then g.eagle.activate p.pixel_x p.pixel_y
    else g.eagle
  let eu := if e.active then e.update dt else (false, e)
  let p := if eu.1 then p.die .eagle else p
  let e := if eu.1 then { eu.2 with phase := 2 } else eu.2
  let go := go ∨ eu.1
  { player := p, world := w, eagle := e, game_over := go, coin := coin.1 }

/-- Method `Game.update`: one simulation tick — the phases of `Game.stepCore`
followed by scoring (score grows with the greatest `-grid_y` seen) and the
smoothed camera follow. -/
def Game.update (dt : ℚ) (rng : ℤ → LaneRng) (g : Game) : Game :=
  if g.game_over then
    { g with
        game_over_timer := g.game_over_timer + dt,
        eagle := (g.eagle.update dt).2 }
  else
    let c := Game.stepCore dt rng g
    let current_y := -c.player.grid_y
    { world := c.world, player := c.player, eagle := c.eagle,
      camera_y := g.camera_y + (c.player.pixel_y - 600 * (6/10) - g.camera_y) * (1/10),
      target_camera_y := c.player.pixel_y - 600 * (6/10),
      score := if current_y > g.max_y_reached then
          g.score + (current_y - g.max_y_reached)
        else g.score,
      max_y_reached := if current_y > g.max_y_reached then current_y
        else g.max_y_reached,
      coins_collected := if c.coin then g.coins_collected + 1 else g.coins_collected,
      game_over := c.game_over, game_over_timer := g.game_over_timer,
      high_score := g.high_score }

/-- One frame of the main loop while playing: an optional directional input
handled by `Player.move`, then one `Game.update` tick. -/
def Game.frame (inp : Option (ℤ × ℤ)) (dt : ℚ) (rng : ℤ → LaneRng) (g : Game) : Game :=
  let g := match inp with
    | some d => if ¬ g.game_over then { g with player := (g.player.move d.1 d.2 g.world).2 }
      else g
    | none => g
  g.update dt rng

/-- Draws that generate contentless lanes: no trees, no coin, and (unused for
Grass) trivial road/water/train draws. -/
def calmDraws : LaneDraws :=
  { grass_variant := true,
    g := { num_trees := 0, positions := [], coin_roll := 1, coin_pick := 0 },
    r := { speed := 1, num_vehicles := 0, vtype := .car, start := fun _ => 0 },
    w := { speed := 1, num_logs := 0, off := fun _ => 0, lily := fun _ => false,
           len := fun _ => 2 },
    train_timer := 2 }

/-- A fixed per-tick random outcome (rightward direction, 5 s reset). -/
def calmRng : LaneRng := { dir := true, reset_timer := 5 }

/-- A world whose roll is always 0, hence every lane is Grass and (with
`calmDraws`) empty: the simplest safe board. -/
def grassWorld : World := World.create (fun _ => 0) (fun _ => calmDraws)

/-- A fresh session on the all-grass world. -/
def freshGame : Game := Game.reset 0 (fun _ => 0) (fun _ => calmDraws)

/-- Input script for end-to-end scenario A: one forward hop is issued on
frames 0, 5 and 10 (each hop takes five 12-px steps to cover a 50-px tile). -/
def hopScript (n : ℕ) : Option (ℤ × ℤ) :=
  if n = 0 ∨ n = 5 ∨ n = 10 then some (0, -1) else none

/-- Scenario A: three forward hops from a fresh reset, `dt = 1/2` per frame. -/
def runA : ℕ → Game
  | 0 => freshGame
  | n + 1 => Game.frame (hopScript n) (1/2) (fun _ => calmRng) (runA n)

/-- Idle scenario: no input at all, `dt = 3` per frame, so the idle timer
passes the 5 s threshold on frame 2 and stays above it. -/
def idleRun : ℕ → Game
  | 0 => freshGame
  | n + 1 => Game.frame none 3 (fun _ => calmRng) (idleRun n)

lemma rat_sqrt_four : Rat.sqrt 4 = 2 := by
  rw [show (4 : ℚ) = 2 * 2 by norm_num, Rat.sqrt_eq]; norm_num

lemma rat_sqrt_196 : Rat.sqrt 196 = 14 := by
  rw [show (196 : ℚ) = 14 * 14 by norm_num, Rat.sqrt_eq]; norm_num

lemma rat_sqrt_676 : Rat.sqrt 676 = 26 := by
  rw [show (676 : ℚ) = 26 * 26 by norm_num, Rat.sqrt_eq]; norm_num

lemma rat_sqrt_1444 : Rat.sqrt 1444 = 38 := by
  rw [show (1444 : ℚ) = 38 * 38 by norm_num, Rat.sqrt_eq]; norm_num

lemma rat_sqrt_2500 : Rat.sqrt 2500 = 50 := by
  rw [show (2500 : ℚ) = 50 * 50 by norm_num, Rat.sqrt_eq]; norm_num

lemma rat_sqrt_130000 : Rat.sqrt 130000 = 360 := by
  rw [show (130000 : ℚ) = ((130000 : ℤ) : ℚ) by norm_num, Rat.sqrt_intCast]
  have h : (130000 : ℤ).toNat = 130000 := rfl
  simp only [Int.sqrt, h]
  norm_num

/- Helper lemmas: the all-grass world is a fixed point of every update. -/

lemma laneTypeFor_roll_zero (y : ℤ) : laneTypeFor y 0 = .grass := by
  unfold laneTypeFor
  have h3 : ((0 : ℚ) < 3/10) := by norm_num
  simp [h3]

lemma grassWorld_lanes (y : ℤ) : grassWorld.lanes y =
    { y := y, type := .grass, world_width := 16, obstacles := [], vehicles := [],
      logs := [], coins := [], grass_variant := true, warning_active := false,
      train_timer := 0, warning_time := 3/2, train := none } := by
  show Lane.generate y (laneTypeFor y 0) 16 calmDraws = _
  rw [laneTypeFor_roll_zero]
  norm_num [Lane.generate, Lane.grassContent, calmDraws]

lemma grassWorld_width : grassWorld.width = 16 := rfl

lemma grassLane_update_fix (dt : ℚ) (rng : LaneRng) (y : ℤ) :
    Lane.update dt rng (grassWorld.lanes y) = grassWorld.lanes y := by
  rw [grassWorld_lanes]
  simp [Lane.update]

lemma grassWorld_update (dt : ℚ) (rng : ℤ → LaneRng) (py : ℚ) :
    World.update dt rng py grassWorld = grassWorld := by
  unfold World.update
  simp only [grassLane_update_fix, ite_self]

lemma grassWorld_coin (p : Player) :
    World.check_coin_collection grassWorld p = (false, grassWorld) := by
  unfold World.check_coin_collection
  have h1 : ∀ y x, (grassWorld.lanes y).collect_coin x = (false, grassWorld.lanes y) := by
    intro y x
    rw [grassWorld_lanes]
    simp [Lane.collect_coin]
  dsimp only
  simp only [h1]
  refine Prod.ext rfl (World.ext rfl (funext fun y => ?_))
  by_cases h : y = truncZ (p.pixel_y / TILE_SIZE)
  · subst h; simp
  · simp only [if_neg h]

lemma grassWorld_check (p : Player) (ha : p.alive = true) :
    World.check_collisions grassWorld p = (none, { p with on_log := none }) := by
  have h1 : ∀ y : ℤ, ¬ (y = y - 1) := by intro y h; omega
  have h2 : ∀ y : ℤ, ¬ (y = y + 1) := by intro y h; omega
  unfold World.check_collisions
  simp only [grassWorld_lanes]
  simp [Lane.check_collision, ha, h1, h2]

set_option maxHeartbeats 1000000

lemma player_update_alive (dt : ℚ) (p : Player) : (Player.update dt p).alive = p.alive := by
  cases hl : p.on_log <;> by_cases ha : p.alive = true <;> by_cases hm : p.moving = true <;>
    simp [Player.update, hl, ha, hm] <;> split_ifs <;> simp

lemma player_update_onlog (dt : ℚ) (p : Player) : (Player.update dt p).on_log = p.on_log := by
  cases hl : p.on_log <;> by_cases ha : p.alive = true <;> by_cases hm : p.moving = true <;>
    simp [Player.update, hl, ha, hm] <;> split_ifs <;> simp

lemma player_update_rest (dt : ℚ) (p : Player) (ha : p.alive = true)
    (hl : p.on_log = none) (hm : p.moving = false) :
    Player.update dt p = { p with idle_time := p.idle_time + dt } := by
  simp [Player.update, ha, hl, hm]

lemma player_update_vert (dt : ℚ) (p : Player) (ha : p.alive = true)
    (hl : p.on_log = none) (hm : p.moving = true) (hx : p.target_x = p.pixel_x)
    (hfar : ¬ |p.target_y - p.pixel_y| < p.move_speed) :
    Player.update dt p = { p with
      idle_time := p.idle_time + dt,
      pixel_y := p.pixel_y +
        (p.target_y - p.pixel_y) / |p.target_y - p.pixel_y| * p.move_speed,
      hop_phase := p.hop_phase + 1/5 } := by
  simp [Player.update, ha, hl, hm, hx, hfar, Rat.sqrt_eq]

lemma player_update_snap (dt : ℚ) (p : Player) (ha : p.alive = true)
    (hl : p.on_log = none) (hm : p.moving = true) (hx : p.target_x = p.pixel_x)
    (hnear : |p.target_y - p.pixel_y| < p.move_speed) :
    Player.update dt p = { p with
      idle_time := p.idle_time + dt,
      pixel_x := p.target_x, pixel_y := p.target_y, moving := false } := by
  simp [Player.update, ha, hl, hm, hx, hnear, Rat.sqrt_eq]

lemma freshGame_eq : freshGame =
    { world := grassWorld, player := Player.init 8 2, eagle := Eagle.init,
      camera_y := 0, target_camera_y := 0, score := 0, max_y_reached := 0,
      coins_collected := 0, game_over := false, game_over_timer := 0,
      high_score := 0 } := rfl

lemma player_move_grass (p : Player) (dx dy : ℤ) (ha : p.alive = true)
    (hm : p.moving = false) (hb0 : ¬ p.grid_x + dx < 0) (hb1 : ¬ p.grid_x + dx ≥ 16) :
    p.move dx dy grassWorld =
      (true,
        { p with
            grid_x := p.grid_x + dx, grid_y := p.grid_y + dy,
            target_x := (p.grid_x + dx) * TILE_SIZE, target_y := (p.grid_y + dy) * TILE_SIZE,
            moving := true, hop_phase := 0, idle_time := 0,
            direction :=
              if dy < 0 then 0 else if dx > 0 then 1
              else if dy > 0 then 2 else if dx < 0 then 3 else p.direction }) := by
  simp [Player.move, ha, hm, hb0, hb1, grassWorld_width, World.get_lane,
    grassWorld_lanes, Lane.has_obstacle_at]

lemma game_update_calm (dt : ℚ) (rng : ℤ → LaneRng) (g : Game)
    (hw : g.world = grassWorld) (hgo : g.game_over = false)
    (ha : g.player.alive = true) (hl : g.player.on_log = none)
    (he : g.eagle.active = false)
    (hidle : ¬ (Player.update dt g.player).idle_time > 5) :
    Game.update dt rng g =
      { world := grassWorld,
        player := { Player.update dt g.player with on_log := none },
        eagle := g.eagle,
        camera_y := g.camera_y +
          ((Player.update dt g.player).pixel_y - 600 * (6/10) - g.camera_y) * (1/10),
        target_camera_y := (Player.update dt g.player).pixel_y - 600 * (6/10),
        score := if -(Player.update dt g.player).grid_y > g.max_y_reached then
            g.score + (-(Player.update dt g.player).grid_y - g.max_y_reached)
          else g.score,
        max_y_reached := if -(Player.update dt g.player).grid_y > g.max_y_reached then
            -(Player.update dt g.player).grid_y
          else g.max_y_reached,
        coins_collected := g.coins_collected,
        game_over := false, game_over_timer := g.game_over_timer,
        high_score := g.high_score } := by
  have hqa : (Player.update dt g.player).alive = true := by
    rw [player_update_alive]; exact ha
  have hql : (Player.update dt g.player).on_log = none := by
    rw [player_update_onlog]; exact hl
  unfold Game.update Game.stepCore
  rw [hgo, hw]
  simp [grassWorld_update, grassWorld_coin, grassWorld_check _ hqa, hqa, hql, he, hidle]

lemma game_update_idle (dt : ℚ) (rng : ℤ → LaneRng) (g : Game)
    (hw : g.world = grassWorld) (hgo : g.game_over = false)
    (ha : g.player.alive = true) (hl : g.player.on_log = none)
    (hidle : (Player.update dt g.player).idle_time > 5)
    (hcatch : ((g.eagle.activate (Player.update dt g.player).pixel_x
      (Player.update dt g.player).pixel_y).update dt).1 = false) :
    Game.update dt rng g =
      { world := grassWorld,
        player := { Player.update dt g.player with on_log := none },
        eagle := ((g.eagle.activate (Player.update dt g.player).pixel_x
          (Player.update dt g.player).pixel_y).update dt).2,
        camera_y := g.camera_y +
          ((Player.update dt g.player).pixel_y - 600 * (6/10) - g.camera_y) * (1/10),
        target_camera_y := (Player.update dt g.player).pixel_y - 600 * (6/10),
        score := if -(Player.update dt g.player).grid_y > g.max_y_reached then
            g.score + (-(Player.update dt g.player).grid_y - g.max_y_reached)
          else g.score,
        max_y_reached := if -(Player.update dt g.player).grid_y > g.max_y_reached then
            -(Player.update dt g.player).grid_y
          else g.max_y_reached,
        coins_collected := g.coins_collected,
        game_over := false, game_over_timer := g.game_over_timer,
        high_score := g.high_score } := by
  have hqa : (Player.update dt g.player).alive = true := by
    rw [player_update_alive]; exact ha
  have hql : (Player.update dt g.player).on_log = none := by
    rw [player_update_onlog]; exact hl
  have hact : (g.eagle.activate (Player.update dt g.player).pixel_x
      (Player.update dt g.player).pixel_y).active = true := by
    simp [Eagle.activate]
  unfold Game.update Game.stepCore
  rw [hgo, hw]
  simp [grassWorld_update, grassWorld_coin, grassWorld_check _ hqa, hqa, hql, hidle,
    hact, hcatch]

lemma game_update_score_mono (dt : ℚ) (rng : ℤ → LaneRng) (g : Game) :
    g.score ≤ (Game.update dt rng g).score := by
  unfold Game.update
  by_cases hgo : g.game_over = true
  · simp [hgo]
  · rw [if_neg hgo]
    dsimp only
    split_ifs with h
    · linarith
    · exact le_refl _

lemma game_update_score_diff (dt : ℚ) (rng : ℤ → LaneRng) (g : Game) :
    (Game.update dt rng g).score - g.score =
      (Game.update dt rng g).max_y_reached - g.max_y_reached := by
  unfold Game.update
  by_cases hgo : g.game_over = true
  · simp [hgo]
  · rw [if_neg hgo]
    dsimp only
    split_ifs with h
    · ring
    · ring

lemma game_update_not_over (dt : ℚ) (rng : ℤ → LaneRng) (g : Game)
    (hgo : g.game_over = false) :
    Game.update dt rng g =
      { world := (Game.stepCore dt rng g).world,
        player := (Game.stepCore dt rng g).player,
        eagle := (Game.stepCore dt rng g).eagle,
        camera_y := g.camera_y +
          ((Game.stepCore dt rng g).player.pixel_y - 600 * (6/10) - g.camera_y) * (1/10),
        target_camera_y := (Game.stepCore dt rng g).player.pixel_y - 600 * (6/10),
        score := if -(Game.stepCore dt rng g).player.grid_y > g.max_y_reached then
            g.score + (-(Game.stepCore dt rng g).player.grid_y - g.max_y_reached)
          else g.score,
        max_y_reached := if -(Game.stepCore dt rng g).player.grid_y > g.max_y_reached then
            -(Game.stepCore dt rng g).player.grid_y
          else g.max_y_reached,
        coins_collected := if (Game.stepCore dt rng g).coin then g.coins_collected + 1
          else g.coins_collected,
        game_over := (Game.stepCore dt rng g).game_over,
        game_over_timer := g.game_over_timer, high_score := g.high_score } := by
  unfold Game.update
  rw [hgo]
  simp

lemma game_update_max_eq (dt : ℚ) (rng : ℤ → LaneRng) (g : Game)
    (hgo : g.game_over = false) :
    (Game.update dt rng g).max_y_reached =
      max g.max_y_reached (-(Game.update dt rng g).player.grid_y) := by
  rw [game_update_not_over dt rng g hgo]
  dsimp only
  split_ifs with h
  · exact (max_eq_right (le_of_lt h)).symm
  · exact (max_eq_left (not_lt.mp h)).symm

lemma vehicle_update_speed (dt : ℚ) (W : ℤ) (v : Vehicle) :
    (Vehicle.update dt W v).speed = v.speed := by
  unfold Vehicle.update; dsimp only; split_ifs <;> rfl

lemma vehicle_update_length (dt : ℚ) (W : ℤ) (v : Vehicle) :
    (Vehicle.update dt W v).length = v.length := by
  unfold Vehicle.update; dsimp only; split_ifs <;> rfl

lemma vehicle_update_type (dt : ℚ) (W : ℤ) (v : Vehicle) :
    (Vehicle.update dt W v).type = v.type := by
  unfold Vehicle.update; dsimp only; split_ifs <;> rfl

lemma log_update_speed (dt : ℚ) (W : ℤ) (l : Log) :
    (Log.update dt W l).speed = l.speed := by
  unfold Log.update; dsimp only; split_ifs <;> rfl

lemma vehicle_update_wrap_right (dt : ℚ) (W : ℤ) (v : Vehicle) (h : v.speed > 0)
    (hx : v.x + v.speed * dt * 60 > W * TILE_SIZE + TILE_SIZE * v.length) :
    (Vehicle.update dt W v).x = -(TILE_SIZE * v.length) := by
  unfold Vehicle.update; dsimp only; rw [if_pos ⟨h, hx⟩]

lemma vehicle_update_wrap_left (dt : ℚ) (W : ℤ) (v : Vehicle) (h : v.speed < 0)
    (hx : v.x + v.speed * dt * 60 < -(TILE_SIZE * v.length)) :
    (Vehicle.update dt W v).x = W * TILE_SIZE + TILE_SIZE * v.length := by
  unfold Vehicle.update; dsimp only
  rw [if_neg (by rintro ⟨h1, -⟩; linarith), if_pos ⟨h, hx⟩]

lemma log_update_wrap_right (dt : ℚ) (W : ℤ) (l : Log) (h : l.speed > 0)
    (hx : l.x + l.speed * dt * 60 > W * TILE_SIZE + TILE_SIZE * l.length) :
    (Log.update dt W l).x = -(TILE_SIZE * l.length) := by
  unfold Log.update; dsimp only; rw [if_pos ⟨h, hx⟩]

lemma log_update_wrap_left (dt : ℚ) (W : ℤ) (l : Log) (h : l.speed < 0)
    (hx : l.x + l.speed * dt * 60 < -(TILE_SIZE * l.length)) :
    (Log.update dt W l).x = W * TILE_SIZE + TILE_SIZE * l.length := by
  unfold Log.update; dsimp only
  rw [if_neg (by rintro ⟨h1, -⟩; linarith), if_pos ⟨h, hx⟩]

lemma vehicle_update_band (dt : ℚ) (W : ℤ) (v : Vehicle) (hdt : 0 ≤ dt) (hW : 0 ≤ W)
    (h1 : -(TILE_SIZE * v.length) ≤ v.x)
    (h2 : v.x ≤ W * TILE_SIZE + TILE_SIZE * v.length) :
    -(TILE_SIZE * v.length) ≤ (Vehicle.update dt W v).x ∧
      (Vehicle.update dt W v).x ≤ W * TILE_SIZE + TILE_SIZE * v.length := by
  have hWq : (0 : ℚ) ≤ (W : ℚ) * 50 := by
    have : (0 : ℚ) ≤ (W : ℚ) := by exact_mod_cast hW
    positivity
  have hLq : (0 : ℚ) ≤ 50 * (v.length : ℚ) := by positivity
  unfold Vehicle.update
  simp only [TILE_SIZE] at h1 h2 ⊢
  split_ifs with ha hb <;> dsimp only
  · exact ⟨le_refl _, by linarith⟩
  · exact ⟨by linarith, le_refl _⟩
  · rcases lt_trichotomy v.speed 0 with hs | hs | hs
    · have hinc : v.speed * dt * 60 ≤ 0 := by
        have : v.speed * dt ≤ 0 := mul_nonpos_of_nonpos_of_nonneg (le_of_lt hs) hdt
        linarith
      have hge : ¬ (v.x + v.speed * dt * 60 < -(50 * (v.length : ℚ))) :=
        fun hc => hb ⟨hs, hc⟩
      exact ⟨not_lt.mp hge, by linarith⟩
    · simp only [hs, zero_mul, add_zero]
      exact ⟨h1, h2⟩
    · have hinc : 0 ≤ v.speed * dt * 60 := by
        have : 0 ≤ v.speed * dt := mul_nonneg (le_of_lt hs) hdt
        linarith
      have hle : ¬ (v.x + v.speed * dt * 60 > (W : ℚ) * 50 + 50 * (v.length : ℚ)) :=
        fun hc => ha ⟨hs, hc⟩
      exact ⟨by linarith, not_lt.mp hle⟩

lemma log_update_band (dt : ℚ) (W : ℤ) (l : Log) (hdt : 0 ≤ dt) (hW : 0 ≤ W)
    (h1 : -(TILE_SIZE * l.length) ≤ l.x)
    (h2 : l.x ≤ W * TILE_SIZE + TILE_SIZE * l.length) :
    -(TILE_SIZE * l.length) ≤ (Log.update dt W l).x ∧
      (Log.update dt W l).x ≤ W * TILE_SIZE + TILE_SIZE * l.length := by
  have hWq : (0 : ℚ) ≤ (W : ℚ) * 50 := by
    have : (0 : ℚ) ≤ (W : ℚ) := by exact_mod_cast hW
    positivity
  have hLq : (0 : ℚ) ≤ 50 * (l.length : ℚ) := by positivity
  unfold Log.update
  simp only [TILE_SIZE] at h1 h2 ⊢
  split_ifs with ha hb <;> dsimp only
  · exact ⟨le_refl _, by linarith⟩
  · exact ⟨by linarith, le_refl _⟩
  · rcases lt_trichotomy l.speed 0 with hs | hs | hs
    · have hinc : l.speed * dt * 60 ≤ 0 := by
        have : l.speed * dt ≤ 0 := mul_nonpos_of_nonpos_of_nonneg (le_of_lt hs) hdt
        linarith
      have hge : ¬ (l.x + l.speed * dt * 60 < -(50 * (l.length : ℚ))) :=
        fun hc => hb ⟨hs, hc⟩
      exact ⟨not_lt.mp hge, by linarith⟩
    · simp only [hs, zero_mul, add_zero]
      exact ⟨h1, h2⟩
    · have hinc : 0 ≤ l.speed * dt * 60 := by
        have : 0 ≤ l.speed * dt := mul_nonneg (le_of_lt hs) hdt
        linarith
      have hle : ¬ (l.x + l.speed * dt * 60 > (W : ℚ) * 50 + 50 * (l.length : ℚ)) :=
        fun hc => ha ⟨hs, hc⟩
      exact ⟨by linarith, not_lt.mp hle⟩

/-- Claim C10: a `Player.move` call made while a previous hop is still
animating or while the player is not alive returns `False` and leaves every
player field unchanged — directional input during an in-flight hop is
dropped, not queued. -/
theorem move_while_moving_or_dead_is_dropped (p : Player) (w : World) (dx dy : ℤ)
    (h : p.moving = true ∨ p.alive = false) :
    p.move dx dy w = (false, p) := by
  have hc : p.moving = true ∨ ¬ (p.alive = true) := by
    rcases h with h | h
    · exact Or.inl h
    · exact Or.inr (by simp [h])
  unfold Player.move
  rw [if_pos hc]

/-- Witness for C10 at a concrete mid-hop player. -/
theorem move_while_moving_or_dead_is_dropped_witness :
    ({ Player.init 8 2 with moving := true } : Player).move 0 (-1) grassWorld =
      (false, { Player.init 8 2 with moving := true }) :=
  move_while_moving_or_dead_is_dropped _ _ _ _ (Or.inl rfl)

/-- Claim C5: for an alive, non-animating player, a move to an out-of-bounds
column or onto an obstacle cell is rejected with the player unchanged (no
animation, no error); otherwise it is accepted: the logical grid position is
committed immediately, the hop animation starts, and the idle timer is reset
to zero, while the pixel position is untouched (it lags behind). -/
theorem move_validation (p : Player) (w : World) (dx dy : ℤ)
    (ha : p.alive = true) (hm : p.moving = false) :
    ((p.grid_x + dx < 0 ∨ p.grid_x + dx ≥ w.width ∨
        (w.get_lane (p.grid_y + dy)).has_obstacle_at (p.grid_x + dx) = true) →
      p.move dx dy w = (false, p)) ∧
    (¬ p.grid_x + dx < 0 → ¬ p.grid_x + dx ≥ w.width →
      (w.get_lane (p.grid_y + dy)).has_obstacle_at (p.grid_x + dx) = false →
      p.move dx dy w =
        (true,
          { p with
              grid_x := p.grid_x + dx, grid_y := p.grid_y + dy,
              target_x := (p.grid_x + dx) * TILE_SIZE,
              target_y := (p.grid_y + dy) * TILE_SIZE,
              moving := true, hop_phase := 0, idle_time := 0,
              direction := if dy < 0 then 0 else if dx > 0 then 1
                else if dy > 0 then 2 else if dx < 0 then 3 else p.direction })) := by
  have hnc : ¬ (p.moving = true ∨ ¬ (p.alive = true)) := by simp [ha, hm]
  constructor
  · intro h
    unfold Player.move
    rw [if_neg hnc]
    dsimp only
    rcases h with h | h | h
    · rw [if_pos (Or.inl h)]
    · rw [if_pos (Or.inr h)]
    · by_cases hb : p.grid_x + dx < 0 ∨ p.grid_x + dx ≥ w.width
      · rw [if_pos hb]
      · rw [if_neg hb, if_pos h]
  · intro hb0 hb1 hob
    unfold Player.move
    rw [if_neg hnc]
    dsimp only
    rw [if_neg (not_or.mpr ⟨hb0, hb1⟩), if_neg (by simp [hob])]
    norm_cast

/-- Witness for C5: the first forward hop from the spawn cell is accepted. -/
theorem move_validation_witness :
    ((Player.init 8 2).move 0 (-1) grassWorld).1 = true := by
  rw [(move_validation (Player.init 8 2) grassWorld 0 (-1) rfl rfl).2
    (by norm_num [Player.init]) (by norm_num [Player.init, grassWorld_width])
    (by norm_num [Player.init, World.get_lane, grassWorld_lanes, Lane.has_obstacle_at])]

/-- Claim C3 counterexample: a rightward car of length 1 sitting at the wrap
bound x = 850 is advanced one tick to x = 851 and repositioned to the fixed
x = −50; the unwrapped trajectory is 851, the difference is 901 px, and
901 px leaves remainder 51 modulo (world width + length) tiles = 850 px, so
the wrapped position is not congruent to the unwrapped one. -/
theorem wraparound_not_congruent :
    (Vehicle.update (1/60) 16 ⟨850, 0, 1, .car, 1⟩).x = -50 ∧
    (850 + 1 * (1/60) * 60 : ℚ) - (Vehicle.update (1/60) 16 ⟨850, 0, 1, .car, 1⟩).x = 901 ∧
    (901 : ℤ) % ((16 + 1) * 50) = 51 := by
  have hx : (Vehicle.update (1/60) 16 ⟨850, 0, 1, .car, 1⟩).x = -50 := by
    norm_num [Vehicle.update, TILE_SIZE]
  refine ⟨hx, ?_, by decide⟩
  rw [hx]
  norm_num

/-- Claim C3 (amended): crossing the world bound repositions a vehicle or log
to the fixed edge position for its direction, independent of the overshoot —
so positions are not congruent to the unwrapped trajectory modulo
(world width + length) tiles, as the counterexample car shows — and
consequently positions always remain within the band
[−length, world width + length] tiles. -/
theorem wraparound_fixed_reposition (dt : ℚ) (W : ℤ) (hdt : 0 ≤ dt) (hW : 0 ≤ W) :
    (∀ k : ℤ, (850 + 1 * (1/60) * 60 : ℚ) -
      (Vehicle.update (1/60) 16 ⟨850, 0, 1, .car, 1⟩).x ≠ k * ((16 + 1) * TILE_SIZE)) ∧
    (∀ v : Vehicle, v.speed > 0 →
      v.x + v.speed * dt * 60 > W * TILE_SIZE + TILE_SIZE * v.length →
      (Vehicle.update dt W v).x = -(TILE_SIZE * v.length)) ∧
    (∀ v : Vehicle, v.speed < 0 →
      v.x + v.speed * dt * 60 < -(TILE_SIZE * v.length) →
      (Vehicle.update dt W v).x = W * TILE_SIZE + TILE_SIZE * v.length) ∧
    (∀ l : Log, l.speed > 0 →
      l.x + l.speed * dt * 60 > W * TILE_SIZE + TILE_SIZE * l.length →
      (Log.update dt W l).x = -(TILE_SIZE * l.length)) ∧
    (∀ l : Log, l.speed < 0 →
      l.x + l.speed * dt * 60 < -(TILE_SIZE * l.length) →
      (Log.update dt W l).x = W * TILE_SIZE + TILE_SIZE * l.length) ∧
    (∀ v : Vehicle, -(TILE_SIZE * v.length) ≤ v.x →
      v.x ≤ W * TILE_SIZE + TILE_SIZE * v.length →
      -(TILE_SIZE * v.length) ≤ (Vehicle.update dt W v).x ∧
        (Vehicle.update dt W v).x ≤ W * TILE_SIZE + TILE_SIZE * v.length) ∧
    (∀ l : Log, -(TILE_SIZE * l.length) ≤ l.x →
      l.x ≤ W * TILE_SIZE + TILE_SIZE * l.length →
      -(TILE_SIZE * l.length) ≤ (Log.update dt W l).x ∧
        (Log.update dt W l).x ≤ W * TILE_SIZE + TILE_SIZE * l.length) := by
  refine ⟨?_, fun v => vehicle_update_wrap_right dt W v,
    fun v => vehicle_update_wrap_left dt W v,
    fun l => log_update_wrap_right dt W l,
    fun l => log_update_wrap_left dt W l,
    fun v h1 h2 => vehicle_update_band dt W v hdt hW h1 h2,
    fun l h1 h2 => log_update_band dt W l hdt hW h1 h2⟩
  intro k hk
  have hx : (Vehicle.update (1/60) 16 ⟨850, 0, 1, .car, 1⟩).x = -50 := by
    norm_num [Vehicle.update, TILE_SIZE]
  rw [hx] at hk
  have h2 : (901 : ℚ) = (k : ℚ) * 850 := by
    push_cast at hk
    norm_num [TILE_SIZE] at hk
    linarith
  have h3 : (901 : ℤ) = k * 850 := by exact_mod_cast h2
  omega

/-- Witness for C3's amended statement at the counterexample's car. -/
theorem wraparound_fixed_reposition_witness :
    (Vehicle.update (1/60) 16 ⟨850, 0, 1, .car, 1⟩).x =
      -(TILE_SIZE * ((⟨850, 0, 1, .car, 1⟩ : Vehicle).length : ℚ)) :=
  (wraparound_fixed_reposition (1/60) 16 (by norm_num) (by norm_num)).2.1
    ⟨850, 0, 1, .car, 1⟩ (by norm_num) (by norm_num [TILE_SIZE])

/-- Claim C7: every row at or behind spawn (row ≥ 0) is generated as a Grass
lane; for rows ahead (row < 0) the type is picked by cumulative thresholds
0.3 / 0.6 / 0.85 on one uniform roll, so a uniform roll in [0,1) yields
Grass, Road, Water, Train with probabilities 0.30, 0.30, 0.25, 0.15. -/
theorem lane_type_distribution (y : ℤ) (roll : ℚ) :
    (0 ≤ y → laneTypeFor y roll = .grass) ∧
    (y < 0 →
      ((laneTypeFor y roll = .grass ↔ roll < 3/10) ∧
       (laneTypeFor y roll = .road ↔ 3/10 ≤ roll ∧ roll < 6/10) ∧
       (laneTypeFor y roll = .water ↔ 6/10 ≤ roll ∧ roll < 85/100) ∧
       (laneTypeFor y roll = .train ↔ 85/100 ≤ roll))) ∧
    (∀ r d, (World.create r d).lanes y =
      Lane.generate y (laneTypeFor y (r y)) 16 (d y)) := by
  refine ⟨?_, ?_, fun r d => rfl⟩
  · intro hy
    unfold laneTypeFor
    rw [if_pos hy]
  · intro hy
    unfold laneTypeFor
    rw [if_neg (by omega : ¬ y ≥ 0)]
    refine ⟨?_, ?_, ?_, ?_⟩ <;>
      split_ifs with h1 h2 h3 <;> simp_all <;>
        first
          | linarith
          | (intro h; linarith)
          | (constructor <;> linarith)
          | (intro h h2x; linarith)

/-- Witness for C7: row −1 with roll 1/2 generates a Road lane. -/
theorem lane_type_distribution_witness : laneTypeFor (-1) (1/2) = .road :=
  ((lane_type_distribution (-1) (1/2)).2.1 (by norm_num)).2.1.mpr (by norm_num)

/-- Claim C8: every vehicle of a generated Road lane and every log of a
generated Water lane carries the single drawn lane-wide signed speed, and no
update operation — entity motion or a lane tick — ever changes any entity's
speed afterwards. -/
theorem lane_speed_invariant :
    (∀ y w d, ∀ v ∈ (Lane.generate y .road w d).vehicles, v.speed = d.r.speed) ∧
    (∀ y w d, ∀ lg ∈ (Lane.generate y .water w d).logs, lg.speed = d.w.speed) ∧
    (∀ dt W v, (Vehicle.update dt W v).speed = v.speed) ∧
    (∀ dt W lg, (Log.update dt W lg).speed = lg.speed) ∧
    (∀ dt rng l, (Lane.update dt rng l).vehicles.map Vehicle.speed =
        l.vehicles.map Vehicle.speed ∧
      (Lane.update dt rng l).logs.map Log.speed = l.logs.map Log.speed) := by
  have hvmap : ∀ (dt : ℚ) (W : ℤ) (vs : List Vehicle),
      (vs.map (Vehicle.update dt W)).map Vehicle.speed = vs.map Vehicle.speed := by
    intro dt W vs
    induction vs with
    | nil => rfl
    | cons a t ih => simp [ih, vehicle_update_speed]
  have hlmap : ∀ (dt : ℚ) (W : ℤ) (ls : List Log),
      (ls.map (Log.update dt W)).map Log.speed = ls.map Log.speed := by
    intro dt W ls
    induction ls with
    | nil => rfl
    | cons a t ih => simp [ih, log_update_speed]
  have hlv : ∀ (dt : ℚ) (rng : LaneRng) (l : Lane), (Lane.update dt rng l).vehicles =
      l.vehicles.map (Vehicle.update dt l.world_width) := by
    intro dt rng l
    unfold Lane.update
    dsimp only
    by_cases ht : l.type = .train
    · rw [if_pos ht]
      cases l.train
      · dsimp only
        split_ifs <;> rfl
      · dsimp only
        split_ifs <;> rfl
    · rw [if_neg ht]
  have hll : ∀ (dt : ℚ) (rng : LaneRng) (l : Lane), (Lane.update dt rng l).logs =
      l.logs.map (Log.update dt l.world_width) := by
    intro dt rng l
    unfold Lane.update
    dsimp only
    by_cases ht : l.type = .train
    · rw [if_pos ht]
      cases l.train
      · dsimp only
        split_ifs <;> rfl
      · dsimp only
        split_ifs <;> rfl
    · rw [if_neg ht]
  refine ⟨?_, ?_, vehicle_update_speed, log_update_speed, ?_⟩
  · intro y w d v hv
    simp only [Lane.generate, Lane.roadContent, List.mem_map, List.mem_range] at hv
    obtain ⟨i, -, rfl⟩ := hv
    rfl
  · intro y w d lg hlg
    simp only [Lane.generate, Lane.waterContent, List.mem_map, List.mem_range] at hlg
    obtain ⟨i, -, rfl⟩ := hlg
    rfl
  · intro dt rng l
    rw [hlv, hll]
    exact ⟨hvmap dt l.world_width l.vehicles, hlmap dt l.world_width l.logs⟩

/-- Witness for C8: the single vehicle of a one-car Road lane has the drawn
lane speed. -/
theorem lane_speed_invariant_witness :
    ∀ v ∈ (Lane.generate (-1) .road 16
      { calmDraws with
          r := { speed := 2, num_vehicles := 1, vtype := .car,
                 start := fun _ => 3 } }).vehicles, v.speed = 2 := by
  intro v hv
  exact lane_speed_invariant.1 (-1) 16 _ v hv

/-- Claim C9: collecting a coin at a column where one exists returns `True`
and removes it; collecting at a column with no coin returns `False` and
leaves the lane unchanged; generated lanes carry at most one coin, so a
second collection at the same column always returns `False`. -/
theorem coin_collection (l : Lane) (x : ℤ) :
    (x ∈ l.coins → l.collect_coin x = (true, { l with coins := l.coins.erase x })) ∧
    (x ∉ l.coins → l.collect_coin x = (false, l)) ∧
    (l.coins.count x ≤ 1 → ((l.collect_coin x).2.collect_coin x).1 = false) ∧
    (∀ y t w d, (Lane.generate y t w d).coins.length ≤ 1) := by
  refine ⟨fun h => by simp [Lane.collect_coin, h],
    fun h => by simp [Lane.collect_coin, h], ?_, ?_⟩
  · intro hc
    by_cases h : x ∈ l.coins
    · have h0 : (l.coins.erase x).count x = 0 := by
        rw [List.count_erase_self]
        omega
      have hnot : x ∉ l.coins.erase x := List.count_eq_zero.mp h0
      simp [Lane.collect_coin, h, hnot]
    · simp [Lane.collect_coin, h]
  · intro y t w d
    cases t <;> simp [Lane.generate, Lane.grassContent] <;> split_ifs <;> simp

/-- Witness for C9 on a width-1 Grass lane that generated one coin at
column 0: the first collection succeeds and the second returns `False`. -/
theorem coin_collection_witness :
    (0 : ℤ) ∈ (Lane.generate (-1) .grass 1
        { calmDraws with
            g := { num_trees := 0, positions := [], coin_roll := 0,
                   coin_pick := 0 } }).coins ∧
    (((Lane.generate (-1) .grass 1
        { calmDraws with
            g := { num_trees := 0, positions := [], coin_roll := 0,
                   coin_pick := 0 } }).collect_coin 0).2.collect_coin 0).1 = false := by
  have hcoins : (Lane.generate (-1) .grass 1
      { calmDraws with
          g := { num_trees := 0, positions := [], coin_roll := 0,
                 coin_pick := 0 } }).coins = [0] := by
    norm_num [Lane.generate, Lane.grassContent, calmDraws]
  refine ⟨by rw [hcoins]; norm_num, ?_⟩
  exact (coin_collection _ 0).2.2.1 (by rw [hcoins]; norm_num)

/-- Claim C4: when the collision check runs for a Water lane at the player's
pixel row, the player is attached to the first log whose span (expanded by
the 10 px tolerance) contains the player's horizontal center, with outcome
none; if no log qualifies, the log association is cleared and the outcome is
splash — which `Player.die` records as death with cause splash. -/
theorem water_collision (l : Lane) (p : Player)
    (hw : l.type = .water) (hv : l.vehicles = [])
    (ha : p.alive = true) (hy : truncZ (p.pixel_y / TILE_SIZE) = l.y) :
    ((∃ lg ∈ l.logs, lg.player_on_log p.pixel_x = true) →
      ∃ lg ∈ l.logs, lg.player_on_log p.pixel_x = true ∧
        l.check_collision p = (none, { p with on_log := some lg })) ∧
    ((∀ lg ∈ l.logs, lg.player_on_log p.pixel_x = false) →
      l.check_collision p = (some .splash, { p with on_log := none })) ∧
    ((p.die .splash).alive = false ∧ (p.die .splash).death_type = some .splash) := by
  have hcc : l.check_collision p =
      (match l.logs.find? (fun lg => lg.player_on_log p.pixel_x) with
        | some lg => (none, { p with on_log := some lg })
        | none => (some .splash, { p with on_log := none })) := by
    unfold Lane.check_collision
    rw [if_neg (by simp [ha]), if_neg (by simp [hy]), if_neg (by simp [hv]),
      if_neg (by simp [hw]), if_pos hw]
  refine ⟨?_, ?_, by simp [Player.die], by simp [Player.die]⟩
  · rintro ⟨lg0, hmem, hlg⟩
    have hs : (l.logs.find? (fun lg => lg.player_on_log p.pixel_x)).isSome := by
      rw [List.find?_isSome]
      exact ⟨lg0, hmem, hlg⟩
    obtain ⟨lg, hfind⟩ := Option.isSome_iff_exists.mp hs
    refine ⟨lg, List.mem_of_find?_eq_some hfind, ?_, ?_⟩
    · have hp := List.find?_some hfind
      exact hp
    · rw [hcc, hfind]
  · intro hnone
    have hf : l.logs.find? (fun lg => lg.player_on_log p.pixel_x) = none := by
      rw [List.find?_eq_none]
      intro lg hlg
      simp [hnone lg hlg]
    rw [hcc, hf]

/-- Witness for C4: on a generated one-log Water lane whose log spans pixels
[0, 100], a player centered at x = 425 is on no log and the check reports
splash with the association cleared. -/
theorem water_collision_witness :
    (Lane.generate (-1) .water 16
        { calmDraws with
            w := { speed := 1, num_logs := 1, off := fun _ => 0,
                   lily := fun _ => false, len := fun _ => 2 } }).check_collision
      (Player.init 8 (-1)) =
      (some .splash, { Player.init 8 (-1) with on_log := none }) := by
  have hlogs : (Lane.generate (-1) .water 16
      { calmDraws with
          w := { speed := 1, num_logs := 1, off := fun _ => 0,
                 lily := fun _ => false, len := fun _ => 2 } }).logs =
      [{ x := 0, y := -1, speed := 1, length := 2, is_lily := false }] := by
    norm_num [Lane.generate, Lane.waterContent, TILE_SIZE, List.range_succ]
  exact (water_collision _ _ rfl rfl rfl
      (by norm_num [Player.init, truncZ, TILE_SIZE, Lane.generate]; try decide)).2.1
    (by
      rw [hlogs]
      intro lg hlg
      simp only [List.mem_singleton] at hlg
      subst hlg
      norm_num [Log.player_on_log, Player.init, TILE_SIZE])

lemma runA_15 : (runA 15).player.alive = true ∧ (runA 15).score = 1 := by
  norm_num [runA, Game.frame, hopScript, freshGame_eq, game_update_calm,
    player_update_rest, player_update_vert, player_update_snap, player_move_grass,
    Player.init, Eagle.init, TILE_SIZE]

/-- Claim C1 counterexample: from a fresh reset on an all-Grass board, three
accepted forward hops (with the hop animations run to completion) leave the
player alive, but the session score is 1, not 3. -/
theorem three_forward_hops_score_not_three :
    (runA 15).player.alive = true ∧ (runA 15).score = 1 ∧
    ((runA 15).score == 3) = false :=
  ⟨runA_15.1, runA_15.2, by rw [runA_15.2]; rfl⟩

/-- Claim C1 (amended): the three-hop scenario yields score exactly 1 — depth
is counted from row 0, and the spawn row is 2, so the first two hops close
the deficit without scoring; in general the score is monotonic, every score
increment equals the increment of `max_y_reached`, on a non-game-over tick
`max_y_reached` becomes the maximum of its old value and the new `-grid_y`,
and a fresh reset starts both score and `max_y_reached` at 0 — so the score
always equals the greatest value of `max (0, -row)` reached. -/
theorem score_tracks_greatest_depth :
    ((runA 15).player.alive = true ∧ (runA 15).score = 1) ∧
    (∀ dt rng g, g.score ≤ (Game.update dt rng g).score) ∧
    (∀ dt rng g, (Game.update dt rng g).score - g.score =
      (Game.update dt rng g).max_y_reached - g.max_y_reached) ∧
    (∀ dt rng g, g.game_over = false →
      (Game.update dt rng g).max_y_reached =
        max g.max_y_reached (-(Game.update dt rng g).player.grid_y)) ∧
    (∀ hs roll draws, (Game.reset hs roll draws).score = 0 ∧
      (Game.reset hs roll draws).max_y_reached = 0) :=
  ⟨runA_15, game_update_score_mono, game_update_score_diff, game_update_max_eq,
   fun _ _ _ => ⟨rfl, rfl⟩⟩

/-- Witness for C1's amended statement: one tick from a fresh reset satisfies
the `max_y_reached` characterization. -/
theorem score_tracks_greatest_depth_witness :
    (Game.update 1 (fun _ => calmRng) freshGame).max_y_reached =
      max freshGame.max_y_reached
        (-(Game.update 1 (fun _ => calmRng) freshGame).player.grid_y) :=
  score_tracks_greatest_depth.2.2.2.1 1 (fun _ => calmRng) freshGame rfl

/-- Claim C2, evaluated at the failing input (a fresh reset on an all-Grass
board, no input, dt = 3 s per tick, so the idle timer passes 5 s on tick 2):
the eagle is activated on tick 2, but `Game.update` re-invokes
`Eagle.activate` on ticks 3 and 4 as well — the eagle's position is reset to
the fixed start offset every tick, so it makes no net progress across ticks
and the continuously idle player is never caught. -/
theorem eagle_reactivated_every_idle_tick :
    (idleRun 2).eagle.active = true ∧ (idleRun 2).player.idle_time > 5 ∧
    (idleRun 3).player.idle_time > 5 ∧
    (idleRun 3).eagle.x = (idleRun 2).eagle.x ∧
    (idleRun 3).eagle.y = (idleRun 2).eagle.y ∧
    (idleRun 3).eagle.phase = 0 ∧
    (idleRun 4).eagle.x = (idleRun 2).eagle.x ∧
    (idleRun 4).player.alive = true := by
  norm_num [idleRun, Game.frame, freshGame_eq, game_update_calm, game_update_idle,
    player_update_rest, Eagle.activate, Eagle.update, Eagle.init, Player.init,
    TILE_SIZE, rat_sqrt_130000]

